import Mathlib

/-!
# Verification of the opencode-antigravity-auth lease lifecycle manager

A shallow embedding of the client-side lease lifecycle manager
(`LeaseManager` in `lease-manager.ts`) and the process shutdown
coordinator (`lifecycle.ts`).

Modelling conventions:
* The mutable fields of a `LeaseManager` instance become the record
  `ManagerState`; every method becomes a pure function from the state
  (plus the environment's network responses) to a new state and a result.
* Network I/O is represented by a `FetchOutcome` argument describing what
  the `fetch` call returned: a transport error / timeout (the promise
  rejected or was aborted), a non-success HTTP status, or a parsed body.
  A JSON-parse failure of the response body rejects the promise and is
  subsumed by `transportError` (both are caught by the same `catch`).
* `decryptData` from `crypto.js` is represented by a function argument
  `dec : String → Option DecryptedAccountData`; `none` models a thrown
  decryption/JSON error.
* Timestamps (`Date.now()`, parsed `expires_at` dates) are epoch
  milliseconds as `Int`.  `new Date(string)` never throws, so responses
  carry the already-parsed epoch value.
* JS numbers used for fractions (`remainingFraction`, `ttl_seconds`,
  thresholds) are modelled as `ℚ`.
* Timer installation/cancellation is observable both in the state fields
  (`heartbeatTimer`, `idleCheckTimer`) and in a `List TimerEvent` trace
  emitted by each operation, so that ordering facts (cancel before
  restart) can be stated.
-/

namespace Antigravity

/-- Account information from a lease (`LeaseAccount`). -/
structure LeaseAccount where
  email : String
  refreshToken : String
  projectId : Option String
deriving DecidableEq

/-- State representing an active lease (`LeaseState`).
`expiresAt` is the epoch-millisecond value of the stored `Date`. -/
structure LeaseState where
  leaseId : Int
  account : LeaseAccount
  expiresAt : Int
deriving DecidableEq

/-- Response from the acquire / report-issue endpoints
(`LeaseAcquireResponse`); `account` is the encrypted payload and
`expires_at` is modelled as the epoch value of `new Date(expires_at)`. -/
structure LeaseAcquireResponse where
  lease_id : Int
  account : String
  expires_at : Int
  ttl_seconds : ℚ
deriving DecidableEq

/-- Response from the renew endpoint (`LeaseRenewResponse`). -/
structure LeaseRenewResponse where
  expires_at : Int
  ttl_seconds : ℚ
deriving DecidableEq

/-- The decrypted account payload (`DecryptedAccountData`). -/
structure DecryptedAccountFields where
  email : String
  refresh_token : String
  project_id : Option String
deriving DecidableEq

/-- Wrapper mirroring `DecryptedAccountData = { account: {...} }`. -/
structure DecryptedAccountData where
  account : DecryptedAccountFields
deriving DecidableEq

/-- Outcome of one `fetch` (with or without timeout) as observed by the
calling code: the promise rejected (network error, abort/timeout, or a
body that failed to JSON-parse), the response had a non-success status
(`!response.ok`), or a parsed body of type `α` was obtained. -/
inductive FetchOutcome (α : Type)
  | transportError
  | httpError (status : Nat)
  | ok (body : α)
deriving DecidableEq

/-- The error taxonomy of the manager (§7 of the design). -/
inductive LeaseError
  | acquireFailure
  | noActiveLease
  | renewFailure
  | switchFailure
deriving DecidableEq

/-- Observable timer (de)installation events, in program order. -/
inductive TimerEvent
  | stopHeartbeat
  | startHeartbeat (intervalMs : Int)
  | stopIdleCheck
  | startIdleCheck
deriving DecidableEq

/-- The mutable fields of a `LeaseManager` instance.  `heartbeatTimer`
holds the armed interval in ms (`none` = no timer); `idleCheckTimer`
records whether the idle-check interval timer is armed (its period is the
fixed `IDLE_CHECK_INTERVAL_MS`).  `onReleaseCallback` records whether a
release-notification callback has been registered. -/
structure ManagerState where
  lease : Option LeaseState
  heartbeatTimer : Option Int
  idleCheckTimer : Bool
  lastActivity : Int
  lastQuotaCheck : Int
  onReleaseCallback : Bool
deriving DecidableEq

/-- Configuration after the constructor has applied `??` defaults. -/
structure LeaseConfig where
  idleTimeoutMs : Int
  quotaCheckIntervalMs : Int
  lowQuotaThreshold : ℚ
  maxRateLimitWaitMs : Int
deriving DecidableEq

/-- `DEFAULT_IDLE_TIMEOUT_MS = 20 * 60 * 1000`. -/
def defaultIdleTimeoutMs : Int := 20 * 60 * 1000

/-- `DEFAULT_QUOTA_CHECK_INTERVAL_MS = 2 * 60 * 1000`. -/
def defaultQuotaCheckIntervalMs : Int := 2 * 60 * 1000

/-- `DEFAULT_LOW_QUOTA_THRESHOLD = 0.2`. -/
def defaultLowQuotaThreshold : ℚ := 2 / 10

/-- `DEFAULT_MAX_RATE_LIMIT_WAIT_MS = 10 * 1000`. -/
def defaultMaxRateLimitWaitMs : Int := 10 * 1000

/-- The constructor's `config.x ?? DEFAULT_X` resolution. -/
def mkLeaseConfig (idleOpt quotaIntervalOpt : Option Int) (lowOpt : Option ℚ)
    (maxWaitOpt : Option Int) : LeaseConfig :=
  { idleTimeoutMs := idleOpt.getD defaultIdleTimeoutMs
  , quotaCheckIntervalMs := quotaIntervalOpt.getD defaultQuotaCheckIntervalMs
  , lowQuotaThreshold := lowOpt.getD defaultLowQuotaThreshold
  , maxRateLimitWaitMs := maxWaitOpt.getD defaultMaxRateLimitWaitMs }

/-- The field initialisers of the constructor: no lease, no timers,
`lastActivity = Date.now()`, `lastQuotaCheck = 0`, no callback. -/
def initialState (now : Int) : ManagerState :=
  { lease := none
  , heartbeatTimer := none
  , idleCheckTimer := false
  , lastActivity := now
  , lastQuotaCheck := 0
  , onReleaseCallback := false }

/-- `onRelease(callback)`. -/
def onRelease (s : ManagerState) : ManagerState :=
  { s with onReleaseCallback := true }

/-- `getAccount()`. -/
def getAccount (s : ManagerState) : Option LeaseAccount :=
  s.lease.map (fun l => l.account)

/-- `getLease()`. -/
def getLease (s : ManagerState) : Option LeaseState :=
  s.lease

/-- `hasActiveLease()`. -/
def hasActiveLease (s : ManagerState) : Bool :=
  s.lease.isSome

/-- `updateActivity()` at time `now`. -/
def updateActivity (s : ManagerState) (now : Int) : ManagerState :=
  { s with lastActivity := now }

/-- `getLastActivity()`. -/
def getLastActivity (s : ManagerState) : Int :=
  s.lastActivity

/-- `Math.floor(ttlSeconds * DEFAULT_HEARTBEAT_RATIO * 1000)` with the
constant `0.5` (`Rat.floor` is used so the definition evaluates; it
agrees with `Int.floor`, see `ratFloor_eq_intFloor`). -/
def heartbeatIntervalMs (ttlSeconds : ℚ) : Int :=
  Rat.floor (ttlSeconds * (1 / 2) * 1000)

/-- `stopHeartbeat()`: clears the timer (and logs) only if one is armed. -/
def stopHeartbeat (s : ManagerState) : ManagerState × List TimerEvent :=
  match s.heartbeatTimer with
  | some _ => ({ s with heartbeatTimer := none }, [TimerEvent.stopHeartbeat])
  | none => (s, [])

/-- `startHeartbeat(ttlSeconds)`: first `stopHeartbeat()`, then arm a
repeating timer with interval `heartbeatIntervalMs ttlSeconds`. -/
def startHeartbeat (s : ManagerState) (ttlSeconds : ℚ) :
    ManagerState × List TimerEvent :=
  let p := stopHeartbeat s
  let i := heartbeatIntervalMs ttlSeconds
  ({ p.1 with heartbeatTimer := some i }, p.2 ++ [TimerEvent.startHeartbeat i])

/-- `stopIdleCheck()`. -/
def stopIdleCheck (s : ManagerState) : ManagerState × List TimerEvent :=
  if s.idleCheckTimer then
    ({ s with idleCheckTimer := false }, [TimerEvent.stopIdleCheck])
  else (s, [])

/-- `startIdleCheck()`: first `stopIdleCheck()`, then arm the fixed
one-minute interval timer. -/
def startIdleCheck (s : ManagerState) : ManagerState × List TimerEvent :=
  let p := stopIdleCheck s
  ({ p.1 with idleCheckTimer := true }, p.2 ++ [TimerEvent.startIdleCheck])

/-- `acquire()` at time `now`, given the broker's response and the
decryption function.  Mirrors the source order: HTTP/transport failures
and decrypt failures are all caught and rethrown as an acquire failure
before any state is mutated; on success the lease is stored, the
heartbeat is started from `ttl_seconds`, activity is recorded and the
idle check is started. -/
def acquire (s : ManagerState) (now : Int)
    (resp : FetchOutcome LeaseAcquireResponse)
    (dec : String → Option DecryptedAccountData) :
    ManagerState × Except LeaseError LeaseState × List TimerEvent :=
  match resp with
  | FetchOutcome.transportError => (s, Except.error LeaseError.acquireFailure, [])
  | FetchOutcome.httpError _ => (s, Except.error LeaseError.acquireFailure, [])
  | FetchOutcome.ok data =>
    match dec data.account with
    | none => (s, Except.error LeaseError.acquireFailure, [])
    | some decrypted =>
      let newLease : LeaseState :=
        { leaseId := data.lease_id
        , account :=
          { email := decrypted.account.email
          , refreshToken := decrypted.account.refresh_token
          , projectId := decrypted.account.project_id }
        , expiresAt := data.expires_at }
      let s1 := { s with lease := some newLease }
      let p1 := startHeartbeat s1 data.ttl_seconds
      let s2 := updateActivity p1.1 now
      let p2 := startIdleCheck s2
      (p2.1, Except.ok newLease, p1.2 ++ p2.2)

/-- What `release()` did besides updating the state: whether the broker
release call was issued, and whether the release callback ran. -/
structure ReleaseTrace where
  networkCall : Bool
  callbackInvoked : Bool
deriving DecidableEq

/-- `release()`: stop both timers first; if no lease is held return
immediately; otherwise clear the lease before the network call, attempt
the broker release (its outcome `resp` is only logged, never raised) and
finally invoke the callback if one is registered. -/
def release (s : ManagerState) (resp : FetchOutcome Bool) :
    ManagerState × ReleaseTrace × List TimerEvent :=
  let p1 := stopHeartbeat s
  let p2 := stopIdleCheck p1.1
  match p2.1.lease with
  | none => (p2.1, { networkCall := false, callbackInvoked := false }, p1.2 ++ p2.2)
  | some _ =>
    let s3 := { p2.1 with lease := none }
    let _ := resp
    (s3, { networkCall := true, callbackInvoked := s3.onReleaseCallback },
      p1.2 ++ p2.2)

/-- `renew()`: requires a lease; on a failed call the state is untouched
and a renew failure is raised; on success `expiresAt` is overwritten,
then the heartbeat is stopped and restarted with the new TTL. -/
def renew (s : ManagerState) (resp : FetchOutcome LeaseRenewResponse) :
    ManagerState × Except LeaseError Unit × List TimerEvent :=
  match s.lease with
  | none => (s, Except.error LeaseError.noActiveLease, [])
  | some lease =>
    match resp with
    | FetchOutcome.transportError => (s, Except.error LeaseError.renewFailure, [])
    | FetchOutcome.httpError _ => (s, Except.error LeaseError.renewFailure, [])
    | FetchOutcome.ok data =>
      let s1 := { s with lease := some { lease with expiresAt := data.expires_at } }
      let p1 := stopHeartbeat s1
      let p2 := startHeartbeat p1.1 data.ttl_seconds
      (p2.1, Except.ok (), p1.2 ++ p2.2)

/-- The JSON body returned by the report-issue endpoint: either a plain
`LeaseAcquireResponse`, or a wrapper `{new_lease: ...}` with a truthy
payload, or a wrapper whose `new_lease` is absent/null (casting such a
wrapper to `LeaseAcquireResponse` yields no usable `lease_id`). -/
inductive ReportIssueBody
  | plain (d : LeaseAcquireResponse)
  | wrapped (d : LeaseAcquireResponse)
  | wrappedEmpty
deriving DecidableEq

/-- `'new_lease' in rawData && rawData.new_lease ? rawData.new_lease :
rawData as LeaseAcquireResponse`. -/
def unwrapReport : ReportIssueBody → Option LeaseAcquireResponse
  | ReportIssueBody.plain d => some d
  | ReportIssueBody.wrapped d => some d
  | ReportIssueBody.wrappedEmpty => none

/-- The JS truthiness check `!data.lease_id || !data.account` on the
unwrapped payload: `lease_id` 0 / absent and the empty-string ciphertext
count as malformed. -/
def reportPayloadMalformed (d : LeaseAcquireResponse) : Bool :=
  d.lease_id == 0 || d.account == ""

/-- `reportIssue(reason, resetTime?)` — the switch primitive — at time
`now`.  The `reason` and reset hint only travel in the request body, so
they do not appear here.  Mirrors the source order exactly: no lease →
`noActiveLease`; failed call or malformed payload → `switchFailure` with
the state untouched; otherwise the old heartbeat is stopped, the payload
decrypted (a decrypt failure raises `switchFailure` *after* the heartbeat
was already stopped), the new lease installed, the heartbeat restarted
with the new TTL, activity reset and the idle check restarted. -/
def reportIssue (s : ManagerState) (now : Int)
    (resp : FetchOutcome ReportIssueBody)
    (dec : String → Option DecryptedAccountData) :
    ManagerState × Except LeaseError LeaseState × List TimerEvent :=
  match s.lease with
  | none => (s, Except.error LeaseError.noActiveLease, [])
  | some _ =>
    match resp with
    | FetchOutcome.transportError => (s, Except.error LeaseError.switchFailure, [])
    | FetchOutcome.httpError _ => (s, Except.error LeaseError.switchFailure, [])
    | FetchOutcome.ok body =>
      match unwrapReport body with
      | none => (s, Except.error LeaseError.switchFailure, [])
      | some data =>
        if reportPayloadMalformed data then
          (s, Except.error LeaseError.switchFailure, [])
        else
          let p1 := stopHeartbeat s
          match dec data.account with
          | none => (p1.1, Except.error LeaseError.switchFailure, p1.2)
          | some decrypted =>
            let newLease : LeaseState :=
              { leaseId := data.lease_id
              , account :=
                { email := decrypted.account.email
                , refreshToken := decrypted.account.refresh_token
                , projectId := decrypted.account.project_id }
              , expiresAt := data.expires_at }
            let s2 := { p1.1 with lease := some newLease }
            let p2 := startHeartbeat s2 data.ttl_seconds
            let s3 := updateActivity p2.1 now
            let p3 := startIdleCheck s3
            (p3.1, Except.ok newLease, p1.2 ++ p2.2 ++ p3.2)

/-- The `action` field of a `RateLimitDecision`. -/
inductive RLAction
  | wait
  | switch
deriving DecidableEq

/-- Decision returned by `handleRateLimit` (`RateLimitDecision`). -/
structure RateLimitDecision where
  action : RLAction
  waitMs : Option Int
  newAccount : Option LeaseAccount
deriving DecidableEq

/-- Result of `handleRateLimit`: new state, the decision handed to the
caller, and whether a switch (a `reportIssue` call) was attempted. -/
structure RateLimitResult where
  state : ManagerState
  decision : RateLimitDecision
  switchAttempted : Bool
deriving DecidableEq

/-- The literal `{action: 'wait', waitMs}`. -/
def waitDecision (w : Int) : RateLimitDecision :=
  { action := RLAction.wait, waitMs := some w, newAccount := none }

/-- The literal `{action: 'switch', newAccount}`. -/
def switchDecision (a : LeaseAccount) : RateLimitDecision :=
  { action := RLAction.switch, waitMs := none, newAccount := some a }

/-- `shouldSwitchOnRateLimit(waitMs)`: `waitMs > this.maxRateLimitWaitMs`. -/
def shouldSwitchOnRateLimit (cfg : LeaseConfig) (waitMs : Int) : Bool :=
  decide (cfg.maxRateLimitWaitMs < waitMs)

/-- `getMaxRateLimitWaitMs()`. -/
def getMaxRateLimitWaitMs (cfg : LeaseConfig) : Int :=
  cfg.maxRateLimitWaitMs

/-- `handleRateLimit(waitMs, reason?, quotaResetTime?)` at time `now`.
`reason` and `quotaResetTime` only shape the request body of the switch
attempt (the issue string and the reset hint), so they are accepted but
do not influence the modelled behaviour.  The environment's answer to a
switch attempt is `resp`/`dec`. -/
def handleRateLimit (cfg : LeaseConfig) (s : ManagerState) (now : Int)
    (waitMs : Int) (reasonArg quotaResetTimeArg : Option String)
    (resp : FetchOutcome ReportIssueBody)
    (dec : String → Option DecryptedAccountData) : RateLimitResult :=
  let _ := reasonArg
  let _ := quotaResetTimeArg
  let s0 := updateActivity s now
  if waitMs ≤ cfg.maxRateLimitWaitMs then
    { state := s0, decision := waitDecision waitMs, switchAttempted := false }
  else
    match reportIssue s0 now resp dec with
    | (s1, Except.ok newLease, _) =>
      { state := s1, decision := switchDecision newLease.account
      , switchAttempted := true }
    | (s1, Except.error _, _) =>
      { state := s1, decision := waitDecision waitMs, switchAttempted := true }

/-- One value of `quotaData.models` (the per-model `quotaInfo`). -/
structure QuotaInfo where
  remainingFraction : Option ℚ
  resetTime : Option String
deriving DecidableEq

/-- `info.quotaInfo?.remainingFraction ?? 1`. -/
def fracOf (info : QuotaInfo) : ℚ :=
  info.remainingFraction.getD 1

/-- One iteration of the scan loop in `checkQuota`: update the running
minimum (and remember that entry's reset time) only on a *strict*
decrease. -/
def quotaStep (acc : ℚ × Option String) (info : QuotaInfo) : ℚ × Option String :=
  if fracOf info < acc.1 then (fracOf info, info.resetTime) else acc

/-- The scan loop of `checkQuota` over `Object.values(quotaData.models)`,
starting from `minRemainingFraction = 1`, `earliestResetTime = undefined`. -/
def quotaScan (entries : List QuotaInfo) : ℚ × Option String :=
  entries.foldl quotaStep (1, none)

/-- JS `Math.round` (round half towards positive infinity). -/
def jsRound (q : ℚ) : Int :=
  Rat.floor (q + 1 / 2)

/-- The quota snapshot `{remaining, total, percentage}`. -/
structure QuotaSnapshot where
  remaining : Int
  total : Int
  percentage : ℚ
deriving DecidableEq

/-- The reset hint `earliestResetTime || new Date(Date.now() + 24h)
.toISOString()` passed to `reportIssue` by the low-quota branch: either
the observed (truthy) reset-time string, or the 24-hour fallback
(recorded as the epoch value it encodes). -/
inductive ResetHint
  | observed (t : String)
  | fallback24h (t : Int)
deriving DecidableEq

/-- How the low-quota branch computes its reset hint from the scanned
reset time at time `now` (note the JS `||`: an empty string also falls
back). -/
def mkResetHint (rt : Option String) (now : Int) : ResetHint :=
  match rt with
  | some t => if t = "" then ResetHint.fallback24h (now + 86400000) else ResetHint.observed t
  | none => ResetHint.fallback24h (now + 86400000)

/-- Result of `checkQuota`: the new state, the returned snapshot (or
`null`), whether a real poll was attempted, whether the fire-and-forget
quota report to the broker was issued, and — when the low-quota branch
fired — the `(issue_type, reset hint)` it sent to `reportIssue`. -/
structure CheckQuotaResult where
  state : ManagerState
  result : Option QuotaSnapshot
  polled : Bool
  reportedToServer : Bool
  switchRequest : Option (String × ResetHint)
deriving DecidableEq

/-- The "no data, no poll" result of the two early returns. -/
def emptyQuotaResult (s : ManagerState) : CheckQuotaResult :=
  { state := s, result := none, polled := false
  , reportedToServer := false, switchRequest := none }

/-- The "polled but failed" result (`return null` after the timestamp
was already written). -/
def failedPollResult (s : ManagerState) : CheckQuotaResult :=
  { state := s, result := none, polled := true
  , reportedToServer := false, switchRequest := none }

/-- The snapshot `{remaining: Math.round(f*100), total: 100,
percentage: f}`. -/
def mkSnapshot (f : ℚ) : QuotaSnapshot :=
  { remaining := jsRound (f * 100), total := 100, percentage := f }

/-- `checkQuota()` at time `now`.  `tokenResp` is the OAuth token
refresh, `quotaResp` the model-availability query (its body is the list
`Object.values(quotaData.models || {})` in iteration order), and
`switchResp`/`dec` answer the `reportIssue` attempt of the low-quota
branch (whose failure is swallowed).  Returns `none` without polling
when no lease is held or when called again within
`quotaCheckIntervalMs` of the *previous attempt* (`lastQuotaCheck` is
written before the poll, also on failure); returns `none` on any
poll failure. -/
def checkQuota (cfg : LeaseConfig) (s : ManagerState) (now : Int)
    (tokenResp : FetchOutcome String)
    (quotaResp : FetchOutcome (List QuotaInfo))
    (switchResp : FetchOutcome ReportIssueBody)
    (dec : String → Option DecryptedAccountData) : CheckQuotaResult :=
  match s.lease with
  | none => emptyQuotaResult s
  | some _ =>
    if now - s.lastQuotaCheck < cfg.quotaCheckIntervalMs then
      emptyQuotaResult s
    else
      let s1 := { s with lastQuotaCheck := now }
      match tokenResp with
      | FetchOutcome.transportError => failedPollResult s1
      | FetchOutcome.httpError _ => failedPollResult s1
      | FetchOutcome.ok _ =>
        match quotaResp with
        | FetchOutcome.transportError => failedPollResult s1
        | FetchOutcome.httpError _ => failedPollResult s1
        | FetchOutcome.ok entries =>
          let scan := quotaScan entries
          let reported := !entries.isEmpty
          if scan.1 ≤ cfg.lowQuotaThreshold then
            let hint := mkResetHint scan.2 now
            let p := reportIssue s1 now switchResp dec
            { state := p.1, result := some (mkSnapshot scan.1), polled := true
            , reportedToServer := reported
            , switchRequest := some ("quota_exhausted", hint) }
          else
            { state := s1, result := some (mkSnapshot scan.1), polled := true
            , reportedToServer := reported, switchRequest := none }

/-! ## Shutdown coordinator (`lifecycle.ts`) -/

/-- The module-level mutable state of `lifecycle.ts`: the shared
`isShuttingDown` guard, whether `leaseManagerRef` is set, and how many
times `handleShutdown` has been registered for each termination signal
(the same `process.on` calls run for SIGTERM, SIGINT and SIGHUP, so one
counter suffices) plus the `beforeExit` hooks. -/
structure LifecycleState where
  isShuttingDown : Bool
  hasManagerRef : Bool
  signalHandlerCount : Nat
  beforeExitHookCount : Nat
deriving DecidableEq

/-- Module load: flag down, no manager, nothing registered. -/
def initialLifecycle : LifecycleState :=
  { isShuttingDown := false, hasManagerRef := false
  , signalHandlerCount := 0, beforeExitHookCount := 0 }

/-- `initLifecycle(leaseManager)`: store the manager reference, then —
unless `isShuttingDown` is already set — register `handleShutdown` for
each termination signal and add a `beforeExit` hook. -/
def initLifecycle (s : LifecycleState) : LifecycleState :=
  let s1 := { s with hasManagerRef := true }
  if s1.isShuttingDown then s1
  else
    { s1 with
      signalHandlerCount := s1.signalHandlerCount + 1
      beforeExitHookCount := s1.beforeExitHookCount + 1 }

/-- What one invocation of `handleShutdown` did: whether it ran the
shutdown sequence (set guard, arm the 10 s watchdog, attempt release,
clear the watchdog) and whether the release was attempted (it is skipped
when no manager reference is set; its error is swallowed and the
watchdog is cleared regardless). -/
structure ShutdownRun where
  ranSequence : Bool
  attemptedRelease : Bool
deriving DecidableEq

/-- One invocation of `handleShutdown(signal)`. -/
def handleShutdown (s : LifecycleState) : LifecycleState × ShutdownRun :=
  if s.isShuttingDown then (s, { ranSequence := false, attemptedRelease := false })
  else
    ({ s with isShuttingDown := true },
      { ranSequence := true, attemptedRelease := s.hasManagerRef })

/-- Node invokes every registered listener in order; this runs
`handleShutdown` `n` times and counts how many of those invocations ran
the shutdown sequence. -/
def runHandlers : Nat → LifecycleState → LifecycleState × Nat
  | 0, s => (s, 0)
  | Nat.succ n, s =>
    let p := handleShutdown s
    let q := runHandlers n p.1
    (q.1, (if (p.2).ranSequence then 1 else 0) + q.2)

/-- Delivery of one termination signal: every registered handler fires. -/
def deliverSignal (s : LifecycleState) : LifecycleState × Nat :=
  runHandlers s.signalHandlerCount s

/-! ## Sample data used by witnesses -/

/-- A sample decrypted account. -/
def sampleAccount : LeaseAccount :=
  { email := "old@example.com", refreshToken := "rt-old", projectId := some "p-old" }

/-- A sample held lease. -/
def sampleLease : LeaseState :=
  { leaseId := 123, account := sampleAccount, expiresAt := 1700000000000 }

/-- A manager state holding `sampleLease` with both timers armed and a
release callback registered. -/
def heldState : ManagerState :=
  { lease := some sampleLease
  , heartbeatTimer := some 900000
  , idleCheckTimer := true
  , lastActivity := 0
  , lastQuotaCheck := 0
  , onReleaseCallback := true }

/-- A decryption function that always fails. -/
def decNone : String → Option DecryptedAccountData := fun _ => none

/-- A fixed decrypted payload. -/
def sampleDecrypted : DecryptedAccountData :=
  { account :=
    { email := "new@example.com", refresh_token := "rt-new", project_id := none } }

/-- A decryption function that always yields `sampleDecrypted`. -/
def decNew : String → Option DecryptedAccountData := fun _ => some sampleDecrypted

/-! ## Claim theorems -/

/-- **C2.** `release()` is idempotent and never raises (it is a total
function here, mirroring that every failure of the broker call is
swallowed): with no held lease it performs no network call and leaves no
lease; in every case the local lease state is empty afterwards —
`hasActiveLease` is `false` regardless of the remote outcome `r1` — and
a second `release` in succession performs no further network call, so
two successive calls issue at most one. -/
theorem c2_release_idempotent (s : ManagerState) (r1 r2 : FetchOutcome Bool) :
    (s.lease = none →
      (release s r1).2.1.networkCall = false ∧ (release s r1).1.lease = none) ∧
    hasActiveLease (release s r1).1 = false ∧
    (release (release s r1).1 r2).2.1.networkCall = false := by
  obtain ⟨ls, hb, idle, la, lqc, cb⟩ := s
  cases ls <;> cases hb <;> cases idle <;>
    simp [release, stopHeartbeat, stopIdleCheck, hasActiveLease]

/-- Witness for C2 at a concrete held state. -/
theorem c2_witness :
    hasActiveLease (release heldState (FetchOutcome.httpError 500)).1 = false ∧
    (release (release heldState (FetchOutcome.httpError 500)).1
      (FetchOutcome.ok true)).2.1.networkCall = false := by
  have h := c2_release_idempotent heldState (FetchOutcome.httpError 500)
    (FetchOutcome.ok true)
  exact ⟨h.2.1, h.2.2⟩

/-- **C10.** With a release callback registered, `release()` invokes it
exactly when a lease was held at entry: the early return on "no active
lease" happens before the callback. -/
theorem c10_release_callback (s : ManagerState) (r : FetchOutcome Bool)
    (hcb : s.onReleaseCallback = true) :
    ((release s r).2.1.callbackInvoked = true ↔ s.lease ≠ none) := by
  obtain ⟨ls, hb, idle, la, lqc, cb⟩ := s
  subst hcb
  cases ls <;> cases hb <;> cases idle <;>
    simp [release, stopHeartbeat, stopIdleCheck]

/-- Witness for C10: with a held lease the callback fires; with no lease
it does not, although it is registered. -/
theorem c10_witness :
    (release heldState (FetchOutcome.ok true)).2.1.callbackInvoked = true ∧
    (release (onRelease (initialState 0)) (FetchOutcome.ok true)).2.1.callbackInvoked
      = false := by
  constructor
  · exact (c10_release_callback heldState (FetchOutcome.ok true) rfl).mpr
      (by simp [heldState])
  · have h := c10_release_callback (onRelease (initialState 0))
      (FetchOutcome.ok true) rfl
    simp [onRelease, initialState] at h
    simpa using h

/-- **C4.** `renew()`: with no lease it fails with `noActiveLease`; with
a lease, a failed call (non-success status, timeout or transport error)
raises `renewFailure` with the whole state — in particular the lease and
its expiry — unchanged; on success the stored expiry becomes the
returned one and the heartbeat is restarted with the new TTL, the old
timer being cancelled before the new one starts (the event trace is
exactly stop-then-start). -/
theorem c4_renew (s : ManagerState) (resp : FetchOutcome LeaseRenewResponse) :
    (s.lease = none → renew s resp = (s, Except.error LeaseError.noActiveLease, [])) ∧
    (s.lease ≠ none →
      (resp = FetchOutcome.transportError ∨ ∃ c, resp = FetchOutcome.httpError c) →
      renew s resp = (s, Except.error LeaseError.renewFailure, [])) ∧
    (∀ l data j, s.lease = some l → resp = FetchOutcome.ok data →
      s.heartbeatTimer = some j →
      (renew s resp).1.lease = some { l with expiresAt := data.expires_at } ∧
      (renew s resp).2.1 = Except.ok () ∧
      (renew s resp).1.heartbeatTimer
        = some (heartbeatIntervalMs data.ttl_seconds) ∧
      (renew s resp).2.2 = [TimerEvent.stopHeartbeat,
        TimerEvent.startHeartbeat (heartbeatIntervalMs data.ttl_seconds)]) := by
  obtain ⟨ls, hb, idle, la, lqc, cb⟩ := s
  refine ⟨?_, ?_, ?_⟩
  · rintro rfl; rfl
  · rintro hne (rfl | ⟨c, rfl⟩) <;> cases ls <;> first
      | exact absurd rfl hne
      | rfl
  · rintro l data j hls rfl hhb
    cases ls with
    | none => exact absurd hls (by simp)
    | some l0 =>
      cases hls
      cases hhb
      simp [renew, stopHeartbeat, startHeartbeat]

/-- A sample successful renew response. -/
def sampleRenewResponse : LeaseRenewResponse :=
  { expires_at := 1700000900000, ttl_seconds := 1800 }

/-- Witness for C4 at a concrete held state and successful response. -/
theorem c4_witness :
    (renew heldState (FetchOutcome.ok sampleRenewResponse)).1.lease
      = some { sampleLease with expiresAt := 1700000900000 } ∧
    (renew heldState (FetchOutcome.ok sampleRenewResponse)).2.2
      = [TimerEvent.stopHeartbeat,
        TimerEvent.startHeartbeat (heartbeatIntervalMs 1800)] := by
  have h := (c4_renew heldState (FetchOutcome.ok sampleRenewResponse)).2.2
    sampleLease sampleRenewResponse 900000 rfl rfl rfl
  exact ⟨h.1, h.2.2.2⟩

/-- `acquire` fails exactly on a transport error / timeout, a non-success
HTTP status, or a decrypt failure of the returned payload. -/
def acquireFails (resp : FetchOutcome LeaseAcquireResponse)
    (dec : String → Option DecryptedAccountData) : Prop :=
  match resp with
  | FetchOutcome.ok d => dec d.account = none
  | _ => True

/-- **C5.** Every failing `acquire()` raises `acquireFailure` and leaves
the state exactly as it was; in particular, starting from a state with no
lease, afterwards `hasActiveLease` is still `false`, `getAccount` and
`getLease` are still `null`, and neither timer has been started. -/
theorem c5_acquire_failure (s : ManagerState) (now : Int)
    (resp : FetchOutcome LeaseAcquireResponse)
    (dec : String → Option DecryptedAccountData) (hf : acquireFails resp dec) :
    acquire s now resp dec = (s, Except.error LeaseError.acquireFailure, []) ∧
    (s.lease = none →
      hasActiveLease (acquire s now resp dec).1 = false ∧
      getAccount (acquire s now resp dec).1 = none ∧
      getLease (acquire s now resp dec).1 = none ∧
      (acquire s now resp dec).1.heartbeatTimer = s.heartbeatTimer ∧
      (acquire s now resp dec).1.idleCheckTimer = s.idleCheckTimer) := by
  have hmain : acquire s now resp dec = (s, Except.error LeaseError.acquireFailure, []) := by
    cases resp with
    | transportError => rfl
    | httpError c => rfl
    | ok d =>
      have hd : dec d.account = none := hf
      simp [acquire, hd]
  refine ⟨hmain, ?_⟩
  intro hl
  rw [hmain]
  simp [hasActiveLease, getAccount, getLease, hl]

/-- Witness for C5: a 500 response against a fresh manager. -/
theorem c5_witness :
    acquire (initialState 0) 0 (FetchOutcome.httpError 500) decNone
      = (initialState 0, Except.error LeaseError.acquireFailure, []) ∧
    hasActiveLease (acquire (initialState 0) 0 (FetchOutcome.httpError 500)
      decNone).1 = false := by
  have h := c5_acquire_failure (initialState 0) 0 (FetchOutcome.httpError 500)
    decNone True.intro
  exact ⟨h.1, (h.2 rfl).1⟩

/-- **C1 (amended).** A failing `reportIssue` while a lease is held
always raises `switchFailure`, and the held lease's id, account and
expiry, the idle timer and the last-activity timestamp are always left
unchanged.  On a non-success response, a malformed payload, or a wrapper
without a usable new lease, the *entire* state (both timers included) is
untouched.  On a decrypt failure, however, the heartbeat timer has
already been cancelled (the source stops it before decrypting) and is not
restarted, so it ends up `none` rather than in its previous state. -/
theorem c1_reportIssue_failure (s : ManagerState) (now : Int)
    (resp : FetchOutcome ReportIssueBody)
    (dec : String → Option DecryptedAccountData) (l : LeaseState)
    (hl : s.lease = some l) :
    ((resp = FetchOutcome.transportError ∨ ∃ c, resp = FetchOutcome.httpError c) →
      reportIssue s now resp dec = (s, Except.error LeaseError.switchFailure, [])) ∧
    (∀ body, resp = FetchOutcome.ok body → unwrapReport body = none →
      reportIssue s now resp dec = (s, Except.error LeaseError.switchFailure, [])) ∧
    (∀ body d, resp = FetchOutcome.ok body → unwrapReport body = some d →
      reportPayloadMalformed d = true →
      reportIssue s now resp dec = (s, Except.error LeaseError.switchFailure, [])) ∧
    (∀ body d, resp = FetchOutcome.ok body → unwrapReport body = some d →
      reportPayloadMalformed d = false → dec d.account = none →
      (reportIssue s now resp dec).2.1 = Except.error LeaseError.switchFailure ∧
      (reportIssue s now resp dec).1.lease = s.lease ∧
      (reportIssue s now resp dec).1.idleCheckTimer = s.idleCheckTimer ∧
      (reportIssue s now resp dec).1.lastActivity = s.lastActivity ∧
      (reportIssue s now resp dec).1.heartbeatTimer = none) := by
  obtain ⟨ls, hb, idle, la, lqc, cb⟩ := s
  cases hl
  refine ⟨?_, ?_, ?_, ?_⟩
  · rintro (rfl | ⟨c, rfl⟩) <;> rfl
  · rintro body rfl hu
    simp [reportIssue, hu]
  · rintro body d rfl hu hm
    simp [reportIssue, hu, hm]
  · rintro body d rfl hu hm hd
    cases hb <;> simp [reportIssue, hu, hm, hd, stopHeartbeat]

/-- **C1 counterexample.** At a concrete state whose heartbeat timer is
armed with 900000 ms, a `reportIssue` that fails at the decrypt step
raises `switchFailure` but leaves the heartbeat timer cancelled
(`none`), so the claim that "the heartbeat ... timers are left in the
same state as before the call" on any failure is false. -/
theorem c1_decrypt_failure_cancels_heartbeat :
    (reportIssue heldState 5
      (FetchOutcome.ok (ReportIssueBody.plain
        { lease_id := 456, account := "ciphertext", expires_at := 1700003600000
        , ttl_seconds := 1800 })) decNone).2.1
      = Except.error LeaseError.switchFailure ∧
    heldState.heartbeatTimer = some 900000 ∧
    (reportIssue heldState 5
      (FetchOutcome.ok (ReportIssueBody.plain
        { lease_id := 456, account := "ciphertext", expires_at := 1700003600000
        , ttl_seconds := 1800 })) decNone).1.heartbeatTimer = none := by
  refine ⟨rfl, rfl, rfl⟩

/-- Witness for the amended C1: an HTTP 503 failure leaves everything
untouched, and a decrypt failure leaves the lease untouched with the
heartbeat cancelled. -/
theorem c1_witness :
    reportIssue heldState 5 (FetchOutcome.httpError 503) decNone
      = (heldState, Except.error LeaseError.switchFailure, []) ∧
    (reportIssue heldState 5
      (FetchOutcome.ok (ReportIssueBody.wrapped
        { lease_id := 456, account := "ciphertext", expires_at := 1700003600000
        , ttl_seconds := 1800 })) decNone).1.lease = heldState.lease := by
  have h := c1_reportIssue_failure heldState 5 (FetchOutcome.httpError 503)
    decNone sampleLease rfl
  have h2 := c1_reportIssue_failure heldState 5
    (FetchOutcome.ok (ReportIssueBody.wrapped
      { lease_id := 456, account := "ciphertext", expires_at := 1700003600000
      , ttl_seconds := 1800 })) decNone sampleLease rfl
  refine ⟨h.1 (Or.inr ⟨503, rfl⟩), ?_⟩
  exact (h2.2.2.2 _ _ rfl rfl (by decide) rfl).2.1

/-- `Rat.floor` is the floor of the `FloorRing` structure on `ℚ`. -/
theorem ratFloor_eq_intFloor (q : ℚ) : Rat.floor q = Int.floor q := by
  rw [Rat.floor_def', Rat.floor_def]

/-- `heartbeatIntervalMs` at an integral TTL loses nothing to the floor:
it is exactly `500 · T` milliseconds. -/
theorem heartbeatIntervalMs_nat (T : ℕ) :
    heartbeatIntervalMs (T : ℚ) = 500 * (T : ℤ) := by
  unfold heartbeatIntervalMs
  have h : ((T : ℚ) * (1 / 2) * 1000) = ((500 * (T : ℤ) : ℤ) : ℚ) := by
    push_cast
    ring
  rw [ratFloor_eq_intFloor, h, Int.floor_intCast]

/-- **C6.** A successful `acquire` — and likewise a successful switch via
`reportIssue` — with `ttl_seconds = T` arms the heartbeat timer with
period exactly `⌊T · 0.5 · 1000⌋` ms; for an integral TTL this equals
`500 · T` ms `= T · 0.5 · 1000` ms exactly, so the first renew tick fires
at `T · 0.5` seconds and not before. -/
theorem c6_heartbeat_period (s : ManagerState) (now : Int)
    (data : LeaseAcquireResponse)
    (dec : String → Option DecryptedAccountData) (acc : DecryptedAccountData)
    (T : ℕ) (hdec : dec data.account = some acc)
    (ht : data.ttl_seconds = (T : ℚ)) :
    (acquire s now (FetchOutcome.ok data) dec).1.heartbeatTimer
      = some (500 * (T : ℤ)) ∧
    (∀ body l, s.lease = some l → unwrapReport body = some data →
      reportPayloadMalformed data = false →
      (reportIssue s now (FetchOutcome.ok body) dec).1.heartbeatTimer
        = some (500 * (T : ℤ))) ∧
    heartbeatIntervalMs (T : ℚ) = 500 * (T : ℤ) ∧
    ((500 * (T : ℤ) : ℤ) : ℚ) = (T : ℚ) * (1 / 2) * 1000 := by
  have hint : heartbeatIntervalMs data.ttl_seconds = 500 * (T : ℤ) := by
    rw [ht, heartbeatIntervalMs_nat]
  refine ⟨?_, ?_, heartbeatIntervalMs_nat T, by push_cast; ring⟩
  · simp only [acquire, hdec, startHeartbeat, startIdleCheck, stopIdleCheck,
      updateActivity, hint]
    split <;> rfl
  · rintro body l hl hu hm
    obtain ⟨ls, hb, idle, la, lqc, cb⟩ := s
    cases hl
    cases hb <;> cases idle <;>
      simp [reportIssue, hu, hm, hdec, stopHeartbeat, startHeartbeat,
        startIdleCheck, stopIdleCheck, updateActivity, hint]

/-- A sample successful acquire response. -/
def sampleAcquireResponse : LeaseAcquireResponse :=
  { lease_id := 123, account := "ciphertext", expires_at := 1700000000000
  , ttl_seconds := 1800 }

/-- Witness for C6: acquiring with `ttl_seconds = 1800` arms the
heartbeat at exactly 900000 ms. -/
theorem c6_witness :
    (acquire (initialState 0) 0 (FetchOutcome.ok sampleAcquireResponse)
      decNew).1.heartbeatTimer = some 900000 ∧
    heartbeatIntervalMs 1800 = 900000 := by
  have h := c6_heartbeat_period (initialState 0) 0 sampleAcquireResponse decNew
    sampleDecrypted 1800 rfl (by norm_num [sampleAcquireResponse])
  have h3 := h.2.2.1
  refine ⟨by simpa using h.1, ?_⟩
  norm_num at h3
  convert h3 using 2

/-- **C3.** `handleRateLimit(waitMs, ...)` with a held lease: when
`waitMs` is at most the configured maximum tolerable wait, it returns a
`wait` decision carrying `waitMs` unchanged with no switch attempted (the
only state change is the activity update); otherwise it attempts a switch
via `reportIssue`, returning `switch` with the new lease's account on
success and degrading to `wait` with the same `waitMs` on failure.
`shouldSwitchOnRateLimit` is true exactly when `waitMs` exceeds that same
threshold. -/
theorem c3_handleRateLimit (cfg : LeaseConfig) (s : ManagerState) (now : Int)
    (waitMs : Int) (reasonArg quotaResetTimeArg : Option String)
    (resp : FetchOutcome ReportIssueBody)
    (dec : String → Option DecryptedAccountData) (l : LeaseState)
    (_hl : s.lease = some l) :
    (waitMs ≤ cfg.maxRateLimitWaitMs →
      handleRateLimit cfg s now waitMs reasonArg quotaResetTimeArg resp dec
        = { state := updateActivity s now, decision := waitDecision waitMs
          , switchAttempted := false }) ∧
    (cfg.maxRateLimitWaitMs < waitMs →
      (handleRateLimit cfg s now waitMs reasonArg quotaResetTimeArg resp
        dec).switchAttempted = true ∧
      (∀ s1 newLease ev,
        reportIssue (updateActivity s now) now resp dec
          = (s1, Except.ok newLease, ev) →
        handleRateLimit cfg s now waitMs reasonArg quotaResetTimeArg resp dec
          = { state := s1, decision := switchDecision newLease.account
            , switchAttempted := true }) ∧
      (∀ s1 e ev,
        reportIssue (updateActivity s now) now resp dec
          = (s1, Except.error e, ev) →
        handleRateLimit cfg s now waitMs reasonArg quotaResetTimeArg resp dec
          = { state := s1, decision := waitDecision waitMs
            , switchAttempted := true })) ∧
    (shouldSwitchOnRateLimit cfg waitMs = true ↔ cfg.maxRateLimitWaitMs < waitMs) := by
  refine ⟨?_, ?_, by simp [shouldSwitchOnRateLimit]⟩
  · intro hle
    simp [handleRateLimit, hle]
  · intro hgt
    have hnle : ¬ waitMs ≤ cfg.maxRateLimitWaitMs := not_le.mpr hgt
    refine ⟨?_, ?_, ?_⟩
    · simp only [handleRateLimit, if_neg hnle]
      rcases hres : reportIssue (updateActivity s now) now resp dec with
        ⟨s1, res, ev⟩
      cases res <;> simp [hres]
    · rintro s1 newLease ev hres
      simp [handleRateLimit, if_neg hnle, hres]
    · rintro s1 e ev hres
      simp [handleRateLimit, if_neg hnle, hres]

/-- Witness for C3: with the default 10 s threshold, a 5 s wait yields
`wait` unchanged, and a 60 s wait with a failing switch degrades to
`wait`. -/
theorem c3_witness :
    handleRateLimit (mkLeaseConfig none none none none) heldState 7 5000 none
      none (FetchOutcome.httpError 503) decNone
      = { state := updateActivity heldState 7, decision := waitDecision 5000
        , switchAttempted := false } ∧
    handleRateLimit (mkLeaseConfig none none none none) heldState 7 60000 none
      none (FetchOutcome.httpError 503) decNone
      = { state := updateActivity heldState 7, decision := waitDecision 60000
        , switchAttempted := true } := by
  have h1 := c3_handleRateLimit (mkLeaseConfig none none none none) heldState 7
    5000 none none (FetchOutcome.httpError 503) decNone sampleLease rfl
  have h2 := c3_handleRateLimit (mkLeaseConfig none none none none) heldState 7
    60000 none none (FetchOutcome.httpError 503) decNone sampleLease rfl
  refine ⟨h1.1 (by decide), ?_⟩
  exact (h2.2.1 (by decide)).2.2 (updateActivity heldState 7)
    LeaseError.switchFailure [] rfl

/-! ## Characterisation of the quota scan loop -/

/-- The running minimum of the fractions of `entries`, started at `a`. -/
def minFracFrom (entries : List QuotaInfo) (a : ℚ) : ℚ :=
  entries.foldl (fun m e => min m (fracOf e)) a

/-- The reset time of the first entry whose fraction equals `target`. -/
def firstAtMin : List QuotaInfo → ℚ → Option String
  | [], _ => none
  | e :: rest, target =>
    if fracOf e = target then e.resetTime else firstAtMin rest target

theorem minFracFrom_nil (a : ℚ) : minFracFrom [] a = a := rfl

theorem minFracFrom_cons (e : QuotaInfo) (l : List QuotaInfo) (a : ℚ) :
    minFracFrom (e :: l) a = minFracFrom l (min a (fracOf e)) := rfl

theorem minFracFrom_le (entries : List QuotaInfo) (a : ℚ) :
    minFracFrom entries a ≤ a := by
  induction entries generalizing a with
  | nil => exact le_refl a
  | cons e l ih =>
    calc minFracFrom (e :: l) a = minFracFrom l (min a (fracOf e)) := rfl
      _ ≤ min a (fracOf e) := ih _
      _ ≤ a := min_le_left _ _

/-- The scan loop of `checkQuota`, from an arbitrary accumulator: its
first component is the running minimum, and its second component is the
reset time of the *first* entry attaining that minimum whenever the
minimum strictly improved, the initial `r` otherwise. -/
theorem quotaScan_foldl (entries : List QuotaInfo) (a : ℚ) (r : Option String) :
    entries.foldl quotaStep (a, r)
      = (minFracFrom entries a,
        if minFracFrom entries a < a then
          firstAtMin entries (minFracFrom entries a)
        else r) := by
  induction entries generalizing a r with
  | nil => simp [minFracFrom]
  | cons e l ih =>
    have hfa : ∀ t : ℚ, firstAtMin (e :: l) t
        = if fracOf e = t then e.resetTime else firstAtMin l t := fun _ => rfl
    show List.foldl quotaStep (quotaStep (a, r) e) l = _
    by_cases h : fracOf e < a
    · have hstep : quotaStep (a, r) e = (fracOf e, e.resetTime) := by
        simp [quotaStep, h]
      rw [hstep, ih]
      have hmin : min a (fracOf e) = fracOf e := min_eq_right h.le
      have hfst : minFracFrom (e :: l) a = minFracFrom l (fracOf e) := by
        rw [minFracFrom_cons, hmin]
      have hle : minFracFrom l (fracOf e) ≤ fracOf e := minFracFrom_le l _
      have hlta : minFracFrom l (fracOf e) < a := lt_of_le_of_lt hle h
      rw [hfst, if_pos hlta, hfa]
      by_cases hm : minFracFrom l (fracOf e) < fracOf e
      · have hne : fracOf e ≠ minFracFrom l (fracOf e) := (ne_of_gt hm)
        rw [if_pos hm, if_neg hne]
      · have heq : fracOf e = minFracFrom l (fracOf e) :=
          le_antisymm (not_lt.mp hm) hle
        rw [if_neg hm, if_pos heq]
    · have hstep : quotaStep (a, r) e = (a, r) := by
        simp [quotaStep, h]
      rw [hstep, ih]
      have hmin : min a (fracOf e) = a := min_eq_left (not_lt.mp h)
      have hfst : minFracFrom (e :: l) a = minFracFrom l a := by
        rw [minFracFrom_cons, hmin]
      rw [hfst]
      by_cases hc : minFracFrom l a < a
      · have hne : fracOf e ≠ minFracFrom l a :=
          ne_of_gt (lt_of_lt_of_le hc (not_lt.mp h))
        rw [if_pos hc, if_pos hc, hfa, if_neg hne]
      · rw [if_neg hc, if_neg hc]

/-- The scan of `checkQuota`, from the source's initial accumulator. -/
theorem quotaScan_eq (entries : List QuotaInfo) :
    quotaScan entries
      = (minFracFrom entries 1,
        if minFracFrom entries 1 < 1 then
          firstAtMin entries (minFracFrom entries 1)
        else none) :=
  quotaScan_foldl entries 1 none

/-- `reportIssue` never touches `lastQuotaCheck`. -/
theorem reportIssue_lastQuotaCheck (s : ManagerState) (now : Int)
    (resp : FetchOutcome ReportIssueBody)
    (dec : String → Option DecryptedAccountData) :
    ((reportIssue s now resp dec).1).lastQuotaCheck = s.lastQuotaCheck := by
  obtain ⟨ls, hb, idle, la, lqc, cb⟩ := s
  cases ls with
  | none => rfl
  | some l =>
    cases resp with
    | transportError => rfl
    | httpError c => rfl
    | ok body =>
      cases hu : unwrapReport body with
      | none => simp [reportIssue, hu]
      | some d =>
        cases hm : reportPayloadMalformed d with
        | true => simp [reportIssue, hu, hm]
        | false =>
          cases hd : dec d.account with
          | none =>
            cases hb <;> simp [reportIssue, hu, hm, hd, stopHeartbeat]
          | some a =>
            cases hb <;> cases idle <;>
              simp [reportIssue, hu, hm, hd, stopHeartbeat, startHeartbeat,
                startIdleCheck, stopIdleCheck, updateActivity]

/-- **C7 (amended).** Every successful quota poll computes the running
minimum `minFracFrom entries 1` of the remaining-quota fractions (started
at 1, hence 1 when the response has no entries), returns the snapshot
`{remaining: round(min·100), total: 100, percentage: min}`, and triggers
`reportIssue` with reason `quota_exhausted` exactly when the minimum is
at or below the configured low-quota threshold, passing either the reset
time of the *first entry attaining that minimum* (none is recorded when
the minimum never strictly improved below 1) or, when no reset time was
recorded, the 24-hour fallback.  (The claim's "earliest reset time among
the entries at that minimum" is not what the loop computes — see the
counterexample.) -/
theorem c7_checkQuota_success (cfg : LeaseConfig) (s : ManagerState)
    (now : Int) (tok : String) (entries : List QuotaInfo)
    (switchResp : FetchOutcome ReportIssueBody)
    (dec : String → Option DecryptedAccountData) (l : LeaseState)
    (hl : s.lease = some l)
    (hi : cfg.quotaCheckIntervalMs ≤ now - s.lastQuotaCheck) :
    (checkQuota cfg s now (FetchOutcome.ok tok) (FetchOutcome.ok entries)
      switchResp dec).result = some (mkSnapshot (minFracFrom entries 1)) ∧
    ((checkQuota cfg s now (FetchOutcome.ok tok) (FetchOutcome.ok entries)
      switchResp dec).switchRequest ≠ none
      ↔ minFracFrom entries 1 ≤ cfg.lowQuotaThreshold) ∧
    (minFracFrom entries 1 ≤ cfg.lowQuotaThreshold →
      (checkQuota cfg s now (FetchOutcome.ok tok) (FetchOutcome.ok entries)
        switchResp dec).switchRequest
        = some ("quota_exhausted",
          mkResetHint (if minFracFrom entries 1 < 1 then
            firstAtMin entries (minFracFrom entries 1) else none) now)) ∧
    (entries = [] → minFracFrom entries 1 = 1) := by
  obtain ⟨ls, hb, idle, la, lqc, cb⟩ := s
  cases hl
  have hnot : ¬ (now - lqc < cfg.quotaCheckIntervalMs) := not_lt.mpr hi
  by_cases ht : minFracFrom entries 1 ≤ cfg.lowQuotaThreshold
  · refine ⟨?_, ?_, ?_, ?_⟩
    · simp [checkQuota, hnot, quotaScan_eq, ht]
    · simp [checkQuota, hnot, quotaScan_eq, ht]
    · intro _
      simp [checkQuota, hnot, quotaScan_eq, ht]
    · rintro rfl; rfl
  · refine ⟨?_, ?_, ?_, ?_⟩
    · simp [checkQuota, hnot, quotaScan_eq, ht]
    · simp [checkQuota, hnot, quotaScan_eq, ht]
    · intro hcon
      exact absurd hcon ht
    · rintro rfl; rfl

/-- The two-entry response used against C7: both models are at the
minimal fraction 0, the later entry having the *earlier* reset time. -/
def c7entries : List QuotaInfo :=
  [ { remainingFraction := some 0, resetTime := some "2025-06-02T00:00:00Z" }
  , { remainingFraction := some 0, resetTime := some "2025-06-01T00:00:00Z" } ]

/-- Lexicographic "strictly earlier" on character lists; ISO-8601 UTC
timestamps of equal format compare chronologically this way. -/
def charsBefore : List Char → List Char → Bool
  | [], [] => false
  | [], _ :: _ => true
  | _ :: _, [] => false
  | c :: cs, d :: ds =>
    if c < d then true else if d < c then false else charsBefore cs ds

/-- The earliest reset time among the entries whose fraction attains the
minimum, as the claim/spec word it ("the earliest quota-reset time among
entries at that minimum"). -/
def specEarliestResetAtMin (entries : List QuotaInfo) : Option String :=
  ((entries.filter (fun e => decide (fracOf e = minFracFrom entries 1))).filterMap
    (fun e => e.resetTime)).foldl
    (fun acc t =>
      match acc with
      | none => some t
      | some u => if charsBefore t.data u.data then some t else some u) none

/-- **C7 counterexample.** With both entries at the minimal fraction 0
(at or below the configured low-quota threshold 0) the code's low-quota
switch passes the reset time of the *first* minimal entry, `2025-06-02…`,
while the earliest reset time among entries at that minimum is
`2025-06-01…`, so the claim's "earliest reset time among the entries at
that minimum" is false. -/
theorem c7_counterexample :
    (checkQuota (mkLeaseConfig none none (some 0) none) heldState 200000
      (FetchOutcome.ok "tok") (FetchOutcome.ok c7entries)
      (FetchOutcome.httpError 503) decNone).switchRequest
      = some ("quota_exhausted", ResetHint.observed "2025-06-02T00:00:00Z") ∧
    specEarliestResetAtMin c7entries = some "2025-06-01T00:00:00Z" ∧
    ("2025-06-02T00:00:00Z" : String) ≠ "2025-06-01T00:00:00Z" := by
  refine ⟨by decide, by decide, by decide⟩

/-- Witness for the amended C7: a successful poll over an empty model
map yields the 100%-remaining snapshot. -/
theorem c7_witness :
    (checkQuota (mkLeaseConfig none none none none) heldState 200000
      (FetchOutcome.ok "tok") (FetchOutcome.ok [])
      (FetchOutcome.httpError 503) decNone).result = some (mkSnapshot 1) := by
  have h := c7_checkQuota_success (mkLeaseConfig none none none none) heldState
    200000 "tok" [] (FetchOutcome.httpError 503) decNone sampleLease rfl
    (by decide)
  exact h.1

/-- **C8 (amended).** `checkQuota()` returns an empty result with no
poll and no state change when no lease is held, and likewise when called
again within the configured minimum interval of the *start of the
previous poll attempt* — the timestamp is recorded before the poll and is
kept even when the poll fails, so the gate is measured since the last
attempt, not since the last successful poll.  Once the interval has
elapsed (with a lease held) a real poll is performed and the timestamp
set to `now`; any failure of the attempt (token refresh failure, HTTP
failure, transport error or timeout) yields the empty result rather than
an error (`checkQuota` is total). -/
theorem c8_checkQuota_gating (cfg : LeaseConfig) (s : ManagerState)
    (now : Int) (tokenResp : FetchOutcome String)
    (quotaResp : FetchOutcome (List QuotaInfo))
    (switchResp : FetchOutcome ReportIssueBody)
    (dec : String → Option DecryptedAccountData) :
    (s.lease = none →
      checkQuota cfg s now tokenResp quotaResp switchResp dec
        = emptyQuotaResult s) ∧
    (s.lease ≠ none → now - s.lastQuotaCheck < cfg.quotaCheckIntervalMs →
      checkQuota cfg s now tokenResp quotaResp switchResp dec
        = emptyQuotaResult s) ∧
    (s.lease ≠ none → ¬ (now - s.lastQuotaCheck < cfg.quotaCheckIntervalMs) →
      (checkQuota cfg s now tokenResp quotaResp switchResp dec).polled = true ∧
      (checkQuota cfg s now tokenResp quotaResp switchResp
        dec).state.lastQuotaCheck = now) ∧
    (s.lease ≠ none → ¬ (now - s.lastQuotaCheck < cfg.quotaCheckIntervalMs) →
      (tokenResp = FetchOutcome.transportError ∨
        (∃ c, tokenResp = FetchOutcome.httpError c) ∨
        quotaResp = FetchOutcome.transportError ∨
        (∃ c, quotaResp = FetchOutcome.httpError c)) →
      (checkQuota cfg s now tokenResp quotaResp switchResp dec).result
        = none) := by
  obtain ⟨ls, hb, idle, la, lqc, cb⟩ := s
  refine ⟨?_, ?_, ?_, ?_⟩
  · rintro rfl
    rfl
  · intro hne hlt
    cases ls with
    | none => exact absurd rfl hne
    | some l => simp [checkQuota, hlt]
  · intro hne hnlt
    cases ls with
    | none => exact absurd rfl hne
    | some l =>
      cases tokenResp with
      | transportError => simp [checkQuota, hnlt, failedPollResult]
      | httpError c => simp [checkQuota, hnlt, failedPollResult]
      | ok tok =>
        cases quotaResp with
        | transportError => simp [checkQuota, hnlt, failedPollResult]
        | httpError c => simp [checkQuota, hnlt, failedPollResult]
        | ok entries =>
          by_cases ht : (quotaScan entries).1 ≤ cfg.lowQuotaThreshold
          · constructor
            · simp [checkQuota, hnlt, ht]
            · simp [checkQuota, if_neg hnlt, if_pos ht,
                reportIssue_lastQuotaCheck]
          · simp [checkQuota, hnlt, ht]
  · intro hne hnlt hfail
    cases ls with
    | none => exact absurd rfl hne
    | some l =>
      rcases hfail with rfl | ⟨c, rfl⟩ | hq | hq
      · simp [checkQuota, hnlt, failedPollResult]
      · simp [checkQuota, hnlt, failedPollResult]
      · cases tokenResp <;> subst hq <;>
          simp [checkQuota, hnlt, failedPollResult]
      · obtain ⟨c, rfl⟩ := hq
        cases tokenResp <;> simp [checkQuota, hnlt, failedPollResult]

/-- **C8 counterexample.** A first poll attempt whose token refresh
fails with HTTP 500 returns no data — so no *successful* poll has ever
happened — yet a second call 1 ms later with everything healthy is
still gated off (no poll is performed, empty result), because the code
stamps `lastQuotaCheck` before the attempt.  Under the claim's "minimum
interval since the last successful poll" the second call would have had
to perform a real poll. -/
theorem c8_counterexample :
    (checkQuota (mkLeaseConfig none none none none) heldState 200000
      (FetchOutcome.httpError 500) (FetchOutcome.ok []) (FetchOutcome.httpError 500)
      decNone).result = none ∧
    (checkQuota (mkLeaseConfig none none none none) heldState 200000
      (FetchOutcome.httpError 500) (FetchOutcome.ok []) (FetchOutcome.httpError 500)
      decNone).polled = true ∧
    (checkQuota (mkLeaseConfig none none none none)
      (checkQuota (mkLeaseConfig none none none none) heldState 200000
        (FetchOutcome.httpError 500) (FetchOutcome.ok [])
        (FetchOutcome.httpError 500) decNone).state 200001
      (FetchOutcome.ok "tok")
      (FetchOutcome.ok [{ remainingFraction := some (1 / 2), resetTime := none }])
      (FetchOutcome.httpError 500) decNone).polled = false ∧
    (checkQuota (mkLeaseConfig none none none none)
      (checkQuota (mkLeaseConfig none none none none) heldState 200000
        (FetchOutcome.httpError 500) (FetchOutcome.ok [])
        (FetchOutcome.httpError 500) decNone).state 200001
      (FetchOutcome.ok "tok")
      (FetchOutcome.ok [{ remainingFraction := some (1 / 2), resetTime := none }])
      (FetchOutcome.httpError 500) decNone).result = none := by
  refine ⟨rfl, rfl, rfl, rfl⟩

/-- Witness for the amended C8: no lease → empty result, and a healthy
call after the interval polls with the timestamp updated. -/
theorem c8_witness :
    checkQuota (mkLeaseConfig none none none none) (initialState 0) 200000
      (FetchOutcome.ok "tok") (FetchOutcome.ok []) (FetchOutcome.httpError 500)
      decNone = emptyQuotaResult (initialState 0) ∧
    (checkQuota (mkLeaseConfig none none none none) heldState 200000
      (FetchOutcome.ok "tok") (FetchOutcome.ok []) (FetchOutcome.httpError 500)
      decNone).polled = true := by
  have h1 := c8_checkQuota_gating (mkLeaseConfig none none none none)
    (initialState 0) 200000 (FetchOutcome.ok "tok") (FetchOutcome.ok [])
    (FetchOutcome.httpError 500) decNone
  have h2 := c8_checkQuota_gating (mkLeaseConfig none none none none)
    heldState 200000 (FetchOutcome.ok "tok") (FetchOutcome.ok [])
    (FetchOutcome.httpError 500) decNone
  exact ⟨h1.1 rfl, (h2.2.2.1 (by simp [heldState]) (by decide)).1⟩

/-- **C9 (code bug).** Calling `initLifecycle` twice before any shutdown
registers the termination-signal handlers twice — the "only register
once" guard tests the `isShuttingDown` flag, which is still false, so
the claim's (and the code comment's) "exactly once per process" is
violated; meanwhile the shared guard flag does ensure that delivering a
signal to the doubly-registered handlers runs the shutdown sequence
exactly once. -/
theorem c9_duplicate_registration :
    (initLifecycle (initLifecycle initialLifecycle)).signalHandlerCount = 2 ∧
    (deliverSignal (initLifecycle (initLifecycle initialLifecycle))).2 = 1 := by
  refine ⟨rfl, rfl⟩

end Antigravity
